import Mathlib

/-!
Verification development for the taxi-trip CO2 pipeline
(load.py / clean.py / transform.py / analysis.py).

The SQL executed through DuckDB is shallowly embedded as pure functions on
lists of rows: a table is a list of rows, a nullable column is an Option,
DOUBLE/float arithmetic is modelled over the rationals, and timestamps are
integer epoch seconds (timezone-naive).  The SQL built-ins the scripts use
(date_diff in seconds, lower, EXTRACT of hour / dow / week / month / year,
AVG, SUM, GROUP BY, DISTINCT, UNION ALL, CROSS JOIN, LIMIT) are given their
standard meanings below.
-/

namespace TaxiCO2

/-- A row of a raw per-year trip table as load.py creates it, restricted to
the six columns clean.py reads (cab_type, vendor_id, pickup_datetime,
dropoff_datetime, passenger_count, trip_distance).  Timestamps are epoch
seconds; vendor_id and passenger_count are nullable. -/
structure Trip where
  cab_type : String
  vendor_id : Option Int
  pickup_datetime : Int
  dropoff_datetime : Int
  passenger_count : Option Int
  trip_distance : ℚ
deriving DecidableEq

/-- Model of the SQL date_diff(second, a, b) built-in on epoch-second
timestamps: b - a. -/
def date_diff_seconds (a b : Int) : Int := b - a

/-- Cleaning threshold MAX_TRIP_SECONDS of clean.py (one day). -/
def MAX_TRIP_SECONDS : Int := 86400

/-- Cleaning threshold MAX_TRIP_MILES of clean.py. -/
def MAX_TRIP_MILES : ℚ := 100

/-- SQL condition (passenger_count IS NULL OR passenger_count <> 0) of the
WHERE clause of clean_one, with three-valued logic resolved: a NULL
passenger_count passes, a zero one does not. -/
def passenger_ok (p : Option Int) : Bool :=
  match p with
  | none => true
  | some k => k != 0

/-- The pairing the base CTE of clean_one performs: the six selected columns
together with the derived duration_seconds. -/
def baseRow (t : Trip) : Trip × Int :=
  (t, date_diff_seconds t.pickup_datetime t.dropoff_datetime)

/-- The WHERE predicate of the filtered CTE of clean_one, applied to a base
row.  Note the clause bounds duration_seconds from above only. -/
def filteredPred (b : Trip × Int) : Bool :=
  passenger_ok b.1.passenger_count
    && decide (0 < b.1.trip_distance)
    && decide (b.1.trip_distance ≤ MAX_TRIP_MILES)
    && decide (b.2 ≤ MAX_TRIP_SECONDS)

/-- clean.py clean_one: the CREATE TABLE dst AS query.  base derives
duration_seconds, filtered applies the WHERE predicate and projects the six
columns back out, and the final SELECT DISTINCT removes exact duplicates
(modelled by List.dedup, which keeps one representative per value class). -/
def clean_one (raw : List Trip) : List Trip :=
  let base := raw.map baseRow
  let filtered := (base.filter filteredPred).map Prod.fst
  filtered.dedup

/-- The filter of clean_one expressed on the trip alone (duration_seconds is
a function of the row, so filtering base rows is filtering trips). -/
def keepTrip (t : Trip) : Bool := filteredPred (baseRow t)

/-! Calendar built-ins used by the EXTRACT clauses of transform.py.  A
timestamp is epoch seconds; days are counted from 1970-01-01 (a Thursday). -/

/-- Day index (from 1970-01-01) holding a timestamp, by floor division. -/
def daysFromEpoch (ts : Int) : Int := Int.fdiv ts 86400

/-- Second within the civil day of a timestamp, in [0, 86400). -/
def secondOfDay (ts : Int) : Int := Int.emod ts 86400

/-- EXTRACT(hour FROM ts): hour of day in [0, 23]. -/
def extractHour (ts : Int) : Int := Int.fdiv (secondOfDay ts) 3600

/-- EXTRACT(dow FROM ts): day of week with Sunday = 0 .. Saturday = 6. -/
def extractDow (ts : Int) : Int := Int.emod (daysFromEpoch ts + 4) 7

/-- Gregorian (year, month, day) of a day index, by the standard
era-of-400-years civil-from-days algorithm. -/
def civilFromDays (z : Int) : Int × Int × Int :=
  let zz := z + 719468
  let era := Int.fdiv zz 146097
  let doe := zz - era * 146097
  let yoe := Int.fdiv (doe - Int.fdiv doe 1460 + Int.fdiv doe 36524 - Int.fdiv doe 146096) 365
  let y := yoe + era * 400
  let doy := doe - (365 * yoe + Int.fdiv yoe 4 - Int.fdiv yoe 100)
  let mp := Int.fdiv (5 * doy + 2) 153
  let d := doy - Int.fdiv (153 * mp + 2) 5 + 1
  let m := mp + (if mp < 10 then 3 else -9)
  (y + (if m ≤ 2 then 1 else 0), m, d)

/-- EXTRACT(year FROM ts). -/
def extractYear (ts : Int) : Int := (civilFromDays (daysFromEpoch ts)).1

/-- EXTRACT(month FROM ts): month of year in [1, 12]. -/
def extractMonth (ts : Int) : Int := (civilFromDays (daysFromEpoch ts)).2.1

/-- Gregorian leap-year test. -/
def isLeapYear (y : Int) : Bool :=
  (Int.emod y 4 == 0 && Int.emod y 100 != 0) || Int.emod y 400 == 0

/-- Days in the months strictly before month m (1-based) of a year. -/
def daysBeforeMonth (leap : Bool) (m : Int) : Int :=
  let base :=
    if m ≤ 1 then 0 else if m = 2 then 31 else if m = 3 then 59
    else if m = 4 then 90 else if m = 5 then 120 else if m = 6 then 151
    else if m = 7 then 181 else if m = 8 then 212 else if m = 9 then 243
    else if m = 10 then 273 else if m = 11 then 304 else 334
  base + (if leap && 3 ≤ m then 1 else 0)

/-- ISO weekday of a timestamp, Monday = 1 .. Sunday = 7. -/
def isoDow (ts : Int) : Int := Int.emod (daysFromEpoch ts + 3) 7 + 1

/-- Number of ISO weeks (52 or 53) in a year. -/
def isoWeekCount (y : Int) : Int :=
  let p := fun (yy : Int) =>
    Int.emod (yy + Int.fdiv yy 4 - Int.fdiv yy 100 + Int.fdiv yy 400) 7
  if p y == 4 || p (y - 1) == 3 then 53 else 52

/-- EXTRACT(week FROM ts): ISO-8601 week of year in [1, 53]. -/
def extractWeek (ts : Int) : Int :=
  let c := civilFromDays (daysFromEpoch ts)
  let y := c.1
  let ordinal := daysBeforeMonth (isLeapYear y) c.2.1 + c.2.2
  let w := Int.fdiv (ordinal - isoDow ts + 10) 7
  if w < 1 then isoWeekCount (y - 1)
  else if isoWeekCount y < w then 1
  else w

/-! Model of transform.py. -/

/-- Model of the SQL lower() built-in: lowercase every character (the cab
categories involved are ASCII, where Char.toLower agrees with SQL). -/
def sqlLower (s : String) : String := ⟨s.data.map Char.toLower⟩

/-- A row of the vehicle_emissions lookup table: the category column (when
the table has one) and the co2_grams_per_mile factor. -/
structure EmissionRow where
  taxi_type : String
  co2_grams_per_mile : ℚ
deriving DecidableEq

/-- The vehicle_emissions table together with the schema facts transform.py
queries from information_schema: whether a taxi_type column and a
co2_grams_per_mile column exist.  When has_co2_grams_per_mile is false the
factor fields of the rows are never read (transform.py aborts first). -/
structure EmissionsTable where
  has_taxi_type : Bool
  has_co2_grams_per_mile : Bool
  rows : List EmissionRow
deriving DecidableEq

/-- Constant SECONDS_PER_HOUR of transform.py. -/
def SECONDS_PER_HOUR : ℚ := 3600

/-- The rows of the ve CTE that build_emissions_cte composes, as a list of
factors: with a taxi_type column, the rows whose lower(taxi_type) equals the
requested category, cut to at most one by LIMIT 1; without one, the first
row of the table. -/
def veFactors (tbl : EmissionsTable) (taxi_type : String) : List ℚ :=
  if tbl.has_taxi_type then
    ((tbl.rows.filter fun r => sqlLower r.taxi_type == taxi_type).map
      fun r => r.co2_grams_per_mile).take 1
  else
    (tbl.rows.map fun r => r.co2_grams_per_mile).take 1

/-- A row of a transformed table: the six cleaned columns plus the derived
metrics of the SELECT of transform_one. -/
structure EnrichedTrip where
  cab_type : String
  vendor_id : Option Int
  pickup_datetime : Int
  dropoff_datetime : Int
  passenger_count : Option Int
  trip_distance : ℚ
  trip_co2_kgs : ℚ
  avg_mph : Option ℚ
  hour_of_day : Int
  day_of_week : Int
  week_of_year : Int
  month_of_year : Int
deriving DecidableEq

/-- One output row of the SELECT of transform_one, for a base row t and a
factor from the ve CTE.  duration_seconds is the DOUBLE cast of
date_diff(second, pickup, dropoff); the avg_mph division is guarded by the
CASE WHEN duration_seconds > 0 clause, NULL otherwise. -/
def enrichRow (factor : ℚ) (t : Trip) : EnrichedTrip :=
  let dur : ℚ := (date_diff_seconds t.pickup_datetime t.dropoff_datetime : ℚ)
  { cab_type := t.cab_type
    vendor_id := t.vendor_id
    pickup_datetime := t.pickup_datetime
    dropoff_datetime := t.dropoff_datetime
    passenger_count := t.passenger_count
    trip_distance := t.trip_distance
    trip_co2_kgs := t.trip_distance * factor / 1000
    avg_mph := if 0 < dur then some (t.trip_distance / (dur / SECONDS_PER_HOUR)) else none
    hour_of_day := extractHour t.pickup_datetime
    day_of_week := extractDow t.pickup_datetime
    week_of_year := extractWeek t.pickup_datetime
    month_of_year := extractMonth t.pickup_datetime }

/-- transform.py transform_one.  The two table-existence preconditions and
the missing-column check of build_emissions_cte raise (Except.error); the
CREATE TABLE AS query is the CROSS JOIN of the base rows with the ve CTE.
The post-hoc column verification of transform_one always passes here because
EnrichedTrip fixes the output schema by construction. -/
def transform_one (emissions : Option EmissionsTable) (src_clean : Option (List Trip))
    (taxi_type : String) : Except String (List EnrichedTrip) :=
  match emissions with
  | none => Except.error "vehicle_emissions lookup table not found. Run load.py first."
  | some tbl =>
    match src_clean with
    | none => Except.error "Source cleaned table not found. Run clean.py first."
    | some rows =>
      if tbl.has_co2_grams_per_mile = false then
        Except.error "vehicle_emissions must have column co2_grams_per_mile."
      else
        Except.ok ((rows.map fun t => (veFactors tbl taxi_type).map fun f => enrichRow f t).flatten)

/-! Model of the union building shared by clean.py and transform.py. -/

/-- The make_union_table helper of build_unions (identical in clean.py and
transform.py).  prev is whatever table of that name existed before: the DROP
TABLE IF EXISTS discards it.  With no tables to union, no table is created
(the view is absent, None); otherwise the view is CREATE TABLE AS the UNION
ALL of the tables, a plain concatenation of their rows. -/
def make_union_table {α : Type} (_prev : Option (List α)) (tables : List (List α)) :
    Option (List α) :=
  if tables.isEmpty then none else some tables.flatten

/-- build_unions of transform.py (clean.py is the same shape): split the
named tables by cab prefix and create the per-cab and all-cab union views. -/
def build_unions {α : Type} (prevY prevG prevA : Option (List α))
    (named : List (String × List α)) :
    Option (List α) × Option (List α) × Option (List α) :=
  let yellow_t := (named.filter fun p => p.1.startsWith "yellow_").map Prod.snd
  let green_t := (named.filter fun p => p.1.startsWith "green_").map Prod.snd
  (make_union_table prevY yellow_t,
   make_union_table prevG green_t,
   make_union_table prevA (yellow_t ++ green_t))

/-! Model of analysis.py.  The queries read a transformed union table; a row
carries the columns they touch.  trip_co2_kgs and the bucket columns are
read through IS NOT NULL guards, so they are modelled as nullable. -/

/-- A row of a transformed union table as analysis.py reads it. -/
structure TRow where
  trip_co2_kgs : Option ℚ
  trip_distance : ℚ
  pickup_datetime : Int
  dropoff_datetime : Int
  cab_type : String
  vendor_id : Option Int
  hour_of_day : Option Int
  day_of_week : Option Int
  week_of_year : Option Int
  month_of_year : Option Int
deriving DecidableEq

/-- The rows eligible for get_max_trip: WHERE trip_co2_kgs IS NOT NULL. -/
def maxTripEligible (rows : List TRow) : List TRow :=
  rows.filter fun r => r.trip_co2_kgs.isSome

/-- The trip_co2_kgs sort key of get_max_trip; every eligible row has a
non-null value, so the default is never read. -/
def co2Key (r : TRow) : ℚ := r.trip_co2_kgs.getD 0

/-- The rows the get_max_trip query of analysis.py (ORDER BY trip_co2_kgs
DESC LIMIT 1 over the eligible rows) may return.  SQL fixes the key order of
the sort but not the relative order of rows tied on the key, and the query
has no secondary sort key, so any eligible row whose key is maximal is a
possible result. -/
def get_max_trip_result (rows : List TRow) (r : TRow) : Prop :=
  r ∈ maxTripEligible rows ∧ ∀ s ∈ maxTripEligible rows, co2Key s ≤ co2Key r

instance (rows : List TRow) (r : TRow) : Decidable (get_max_trip_result rows r) := by
  unfold get_max_trip_result
  infer_instance

/-- Maximum of the non-null trip_co2_kgs values of a view (None when there
is none): the value any result row of get_max_trip carries. -/
def maxCo2 (rows : List TRow) : Option ℚ :=
  match rows.filterMap fun r => r.trip_co2_kgs with
  | [] => none
  | x :: xs => some (xs.foldl max x)

/-- Insertion step of the ORDER BY model. -/
def insertLe {α : Type} (le : α → α → Bool) (x : α) : List α → List α
  | [] => [x]
  | y :: ys => if le x y then x :: y :: ys else y :: insertLe le x ys

/-- Insertion sort: the ORDER BY of the aggregate queries of analysis.py. -/
def sortLe {α : Type} (le : α → α → Bool) : List α → List α
  | [] => []
  | x :: xs => insertLe le x (sortLe le xs)

/-- Projection of the WHERE clause of avg_by_bucket: a (bucket value,
trip_co2_kgs) pair when both are non-null, dropped otherwise. -/
def bucketPair (bucket : TRow → Option Int) (r : TRow) : Option (Int × ℚ) :=
  match bucket r, r.trip_co2_kgs with
  | some b, some c => some (b, c)
  | _, _ => none

/-- avg_by_bucket of analysis.py: keep the rows where both trip_co2_kgs and
the bucket column are non-null, group by the bucket value, average
trip_co2_kgs per group, and order by the bucket value (ORDER BY 1). -/
def avg_by_bucket (rows : List TRow) (bucket : TRow → Option Int) : List (Int × ℚ) :=
  let good := rows.filterMap (bucketPair bucket)
  let keys := sortLe (fun a b => decide (a ≤ b)) (good.map Prod.fst).dedup
  keys.map fun b =>
    let vs := (good.filter fun p => p.1 == b).map Prod.snd
    (b, vs.sum / (vs.length : ℚ))

/-- The grouping key of monthly_totals_full: date_trunc(month, pickup) with
the year and month extracted alongside determine, and are determined by, the
(year, month) pair of pickup_datetime. -/
def pickupYM (r : TRow) : Int × Int :=
  (extractYear r.pickup_datetime, extractMonth r.pickup_datetime)

/-- monthly_totals_full of analysis.py: over the rows with non-null
trip_co2_kgs, group by the absolute year-month of pickup_datetime, sum
trip_co2_kgs per group, and order by the truncated month (lexicographic on
(year, month)).  The query creates a group only for a year-month some row
falls in: no zero-filling. -/
def monthly_totals_full (rows : List TRow) : List ((Int × Int) × ℚ) :=
  let good := rows.filter fun r => r.trip_co2_kgs.isSome
  let keys := sortLe
    (fun a b => decide (a.1 < b.1 ∨ (a.1 = b.1 ∧ a.2 ≤ b.2)))
    (good.map pickupYM).dedup
  keys.map fun k =>
    (k, ((good.filter fun r => pickupYM r == k).map fun r => r.trip_co2_kgs.getD 0).sum)

/-! Concrete inputs used to settle individual claims.  Timestamp 1579089600
is 2020-01-15 12:00:00, 1584273600 is 2020-03-15 12:00:00. -/

/-- One-row emission lookup with a lowercase yellow category and factor 400
(used for the C3 witness). -/
def tblOneYellow : EmissionsTable :=
  { has_taxi_type := true, has_co2_grams_per_mile := true,
    rows := [{ taxi_type := "yellow", co2_grams_per_mile := 400 }] }

/-- A raw trip with zero duration (pickup equals dropoff) that the cleaning
predicate accepts. -/
def zeroDurTrip : Trip :=
  { cab_type := "yellow", vendor_id := some 1, pickup_datetime := 1579089600,
    dropoff_datetime := 1579089600, passenger_count := some 1, trip_distance := 1 }

/-- An ordinary valid raw trip (10 minutes, 5 miles). -/
def plainTrip : Trip :=
  { cab_type := "yellow", vendor_id := some 1, pickup_datetime := 1579089600,
    dropoff_datetime := 1579090200, passenger_count := some 1, trip_distance := 5 }

/-- A second ordinary valid raw trip, distinct from plainTrip. -/
def plainTrip2 : Trip :=
  { cab_type := "yellow", vendor_id := some 2, pickup_datetime := 1584273600,
    dropoff_datetime := 1584274800, passenger_count := some 2, trip_distance := 3 }

/-- Emission lookup whose only category is suv: the yellow lookup resolves
zero rows (used against C2). -/
def tblNoYellow : EmissionsTable :=
  { has_taxi_type := true, has_co2_grams_per_mile := true,
    rows := [{ taxi_type := "suv", co2_grams_per_mile := 500 }] }

/-- Emission lookup with two yellow rows: the yellow lookup is ambiguous
(used against C2). -/
def tblTwoYellow : EmissionsTable :=
  { has_taxi_type := true, has_co2_grams_per_mile := true,
    rows := [{ taxi_type := "yellow", co2_grams_per_mile := 400 },
             { taxi_type := "yellow", co2_grams_per_mile := 500 }] }

/-- Emission lookup with a taxi_type column but no rows at all (used against
C3). -/
def tblEmptyRows : EmissionsTable :=
  { has_taxi_type := true, has_co2_grams_per_mile := true, rows := [] }

/-- The transformed table of the C3 witness run. -/
def outConservation : List EnrichedTrip :=
  ([plainTrip, plainTrip2].map fun t =>
    (veFactors tblOneYellow "yellow").map fun f => enrichRow f t).flatten

/-- Emission lookup for the C5 scenario: factor 400 for yellow. -/
def tblScenario : EmissionsTable :=
  { has_taxi_type := true, has_co2_grams_per_mile := true,
    rows := [{ taxi_type := "yellow", co2_grams_per_mile := 400 }] }

/-- The CleanTrip row of the C5 scenario: trip_distance 10 (one hour). -/
def scenarioTrip : Trip :=
  { cab_type := "yellow", vendor_id := some 1, pickup_datetime := 1579089600,
    dropoff_datetime := 1579093200, passenger_count := some 1, trip_distance := 10 }

/-- The transformed table of the C5 scenario run. -/
def outScenario : List EnrichedTrip :=
  ([scenarioTrip].map fun t =>
    (veFactors tblScenario "yellow").map fun f => enrichRow f t).flatten

/-- The enriched row of the C5 scenario. -/
def scenarioEnriched : EnrichedTrip := enrichRow 400 scenarioTrip

/-- A cleaned trip with zero duration reaching the enricher (C8). -/
def zeroDurClean : Trip :=
  { cab_type := "yellow", vendor_id := some 3, pickup_datetime := 1584273600,
    dropoff_datetime := 1584273600, passenger_count := some 1, trip_distance := 3 }

/-- Emission lookup for the C8 witness. -/
def tblGuard : EmissionsTable :=
  { has_taxi_type := true, has_co2_grams_per_mile := true,
    rows := [{ taxi_type := "yellow", co2_grams_per_mile := 250 }] }

/-- The transformed table of the C8 witness run. -/
def outGuard : List EnrichedTrip :=
  ([zeroDurClean].map fun t =>
    (veFactors tblGuard "yellow").map fun f => enrichRow f t).flatten

/-- The enriched row of the C8 witness run. -/
def guardEnriched : EnrichedTrip := enrichRow 250 zeroDurClean

/-- Emission lookup whose stored category differs from the requested one in
case only (C10). -/
def tblCased : EmissionsTable :=
  { has_taxi_type := true, has_co2_grams_per_mile := true,
    rows := [{ taxi_type := "Yellow", co2_grams_per_mile := 400 }] }

/-- The cased factor row of tblCased. -/
def casedRow : EmissionRow := { taxi_type := "Yellow", co2_grams_per_mile := 400 }

/-- A transformed-view row with CO2 5, first of the C6 tie. -/
def tieRowA : TRow :=
  { trip_co2_kgs := some 5, trip_distance := 12, pickup_datetime := 1579089600,
    dropoff_datetime := 1579093200, cab_type := "yellow", vendor_id := some 1,
    hour_of_day := some 12, day_of_week := some 3, week_of_year := some 3,
    month_of_year := some 1 }

/-- A transformed-view row with CO2 5, second of the C6 tie (a different
vendor than tieRowA). -/
def tieRowB : TRow :=
  { trip_co2_kgs := some 5, trip_distance := 12, pickup_datetime := 1579089600,
    dropoff_datetime := 1579093200, cab_type := "yellow", vendor_id := some 2,
    hour_of_day := some 12, day_of_week := some 3, week_of_year := some 3,
    month_of_year := some 1 }

/-- A transformed-view row with CO2 3.2, below the C6 tie. -/
def tieRowC : TRow :=
  { trip_co2_kgs := some (16/5), trip_distance := 8, pickup_datetime := 1584273600,
    dropoff_datetime := 1584277200, cab_type := "yellow", vendor_id := some 1,
    hour_of_day := some 12, day_of_week := some 0, week_of_year := some 11,
    month_of_year := some 3 }

/-- The C6 view: CO2 values 5.0, 5.0 and 3.2. -/
def tieView : List TRow := [tieRowA, tieRowB, tieRowC]

/-- A transformed-view row in cyclical month 1 (January 2020). -/
def monthRow1 : TRow :=
  { trip_co2_kgs := some 1, trip_distance := 2, pickup_datetime := 1579089600,
    dropoff_datetime := 1579090200, cab_type := "yellow", vendor_id := some 1,
    hour_of_day := some 12, day_of_week := some 3, week_of_year := some 3,
    month_of_year := some 1 }

/-- A transformed-view row in cyclical month 3 (March 2020). -/
def monthRow3 : TRow :=
  { trip_co2_kgs := some 3, trip_distance := 6, pickup_datetime := 1584273600,
    dropoff_datetime := 1584274800, cab_type := "yellow", vendor_id := some 1,
    hour_of_day := some 12, day_of_week := some 0, week_of_year := some 11,
    month_of_year := some 3 }

/-- The C4 view: trips only in cyclical months 1 and 3 of one covered
cycle (the year 2020). -/
def monthView : List TRow := [monthRow1, monthRow3]

/-! Helper lemmas. -/

theorem clean_one_eq (raw : List Trip) :
    clean_one raw = (raw.filter keepTrip).dedup := by
  show (List.map Prod.fst (List.filter filteredPred (raw.map baseRow))).dedup
      = (raw.filter keepTrip).dedup
  rw [List.filter_map, List.map_map]
  have h1 : Prod.fst ∘ baseRow = id := rfl
  have h2 : filteredPred ∘ baseRow = keepTrip := rfl
  rw [h1, h2, List.map_id]

theorem passenger_ok_iff (p : Option Int) :
    passenger_ok p = true ↔ p = none ∨ p ≠ some 0 := by
  cases p with
  | none => simp [passenger_ok]
  | some k =>
    simp only [passenger_ok]
    constructor
    · intro h
      right
      simp only [ne_eq, Option.some.injEq]
      exact fun hk => by simp [hk] at h
    · intro h
      rcases h with h | h
      · exact absurd h (by simp)
      · simp only [ne_eq, Option.some.injEq] at h
        simpa using h

theorem mem_clean_one (raw : List Trip) (t : Trip) :
    t ∈ clean_one raw ↔ t ∈ raw ∧ keepTrip t = true := by
  rw [clean_one_eq, List.mem_dedup, List.mem_filter]

theorem transform_one_ok (tbl : EmissionsTable) (rows : List Trip) (taxi_type : String)
    (out : List EnrichedTrip)
    (h : transform_one (some tbl) (some rows) taxi_type = Except.ok out) :
    tbl.has_co2_grams_per_mile = true ∧
      out = (rows.map fun t => (veFactors tbl taxi_type).map fun f => enrichRow f t).flatten := by
  unfold transform_one at h
  by_cases hc : tbl.has_co2_grams_per_mile = false
  · simp [hc] at h
  · simp only [hc, if_false] at h
    exact ⟨by simpa using hc, (Except.ok.injEq _ _).mp h |>.symm⟩

theorem veFactors_length_le (tbl : EmissionsTable) (taxi_type : String) :
    (veFactors tbl taxi_type).length ≤ 1 := by
  unfold veFactors
  by_cases h : tbl.has_taxi_type
  · simp only [h, if_true]
    exact le_trans (le_of_eq (List.length_take _ _)) (min_le_left _ _)
  · simp only [h, if_false]
    exact le_trans (le_of_eq (List.length_take _ _)) (min_le_left _ _)

theorem sum_map_const {α : Type} (l : List α) (k : ℕ) :
    (l.map fun _ => k).sum = l.length * k := by
  induction l with
  | nil => simp
  | cons x xs ih => simp [ih, Nat.succ_mul, Nat.add_comm]

theorem flatten_map_nil {α β : Type} (l : List α) :
    (l.map fun _ => ([] : List β)).flatten = [] := by
  induction l with
  | nil => rfl
  | cons x xs ih => simp [ih]

theorem mem_insertLe {α : Type} (le : α → α → Bool) (x a : α) (l : List α) :
    a ∈ insertLe le x l ↔ a = x ∨ a ∈ l := by
  induction l with
  | nil => simp [insertLe]
  | cons y ys ih =>
    by_cases h : le x y
    · simp [insertLe, h]
    · simp [insertLe, h, ih]
      tauto

theorem mem_sortLe {α : Type} (le : α → α → Bool) (a : α) (l : List α) :
    a ∈ sortLe le l ↔ a ∈ l := by
  induction l with
  | nil => simp [sortLe]
  | cons x xs ih => simp [sortLe, mem_insertLe, ih]

theorem exists_max_on {α : Type} (f : α → ℚ) :
    ∀ l : List α, l ≠ [] → ∃ r ∈ l, ∀ s ∈ l, f s ≤ f r := by
  intro l
  induction l with
  | nil => intro h; exact absurd rfl h
  | cons x xs ih =>
    intro _
    rcases eq_or_ne xs [] with hnil | hne
    · subst hnil
      exact ⟨x, List.mem_singleton_self x, by
        intro s hs
        rw [List.mem_singleton] at hs
        exact le_of_eq (congrArg f hs)⟩
    · obtain ⟨r, hr, hmax⟩ := ih hne
      rcases le_total (f x) (f r) with hle | hle
      · refine ⟨r, List.mem_cons_of_mem x hr, ?_⟩
        intro s hs
        rcases List.mem_cons.mp hs with h | h
        · exact h ▸ hle
        · exact hmax s h
      · refine ⟨x, List.mem_cons_self x xs, ?_⟩
        intro s hs
        rcases List.mem_cons.mp hs with h | h
        · exact le_of_eq (congrArg f h)
        · exact le_trans (hmax s h) hle

theorem foldl_max_mem (x : ℚ) (l : List ℚ) : l.foldl max x ∈ x :: l := by
  induction l generalizing x with
  | nil => simp
  | cons y ys ih =>
    rw [List.foldl_cons]
    rcases List.mem_cons.mp (ih (max x y)) with h | h
    · rw [h]
      rcases max_choice x y with hx | hy
      · rw [hx]; exact List.mem_cons_self _ _
      · rw [hy]; exact List.mem_cons_of_mem _ (List.mem_cons_self _ _)
    · exact List.mem_cons_of_mem _ (List.mem_cons_of_mem _ h)

theorem le_foldl_max (x : ℚ) (l : List ℚ) : ∀ y ∈ x :: l, y ≤ l.foldl max x := by
  induction l generalizing x with
  | nil =>
    intro y hy
    rw [List.mem_singleton] at hy
    exact le_of_eq (hy ▸ rfl)
  | cons z zs ih =>
    intro y hy
    have ihz := ih (max x z)
    rcases List.mem_cons.mp hy with h | h
    · subst h
      exact le_trans (le_max_left y z) (ihz (max y z) (List.mem_cons_self _ _))
    · rcases List.mem_cons.mp h with h2 | h2
      · subst h2
        exact le_trans (le_max_right x y) (ihz (max x y) (List.mem_cons_self _ _))
      · exact ihz y (List.mem_cons_of_mem _ h2)

theorem bucketPair_eq_some (bucket : TRow → Option Int) (r : TRow) (p : Int × ℚ)
    (h : bucketPair bucket r = some p) :
    bucket r = some p.1 ∧ r.trip_co2_kgs = some p.2 := by
  unfold bucketPair at h
  cases hbr : bucket r <;> cases hcr : r.trip_co2_kgs <;> rw [hbr, hcr] at h <;>
    simp_all
  exact ⟨congrArg Prod.fst h, congrArg Prod.snd h⟩

theorem filterMap_co2 (rows : List TRow) :
    (rows.filterMap fun r => r.trip_co2_kgs) = (maxTripEligible rows).map co2Key := by
  induction rows with
  | nil => rfl
  | cons r rs ih =>
    unfold maxTripEligible at *
    cases hr : r.trip_co2_kgs with
    | none =>
      rw [List.filterMap_cons, hr, List.filter_cons_of_neg (by simp [hr])]
      exact ih
    | some v =>
      rw [List.filterMap_cons, hr, List.filter_cons_of_pos (by simp [hr]), List.map_cons]
      have hk : co2Key r = v := by simp [co2Key, hr]
      rw [hk]
      exact congrArg (v :: ·) ih

/-! Claim C1. -/

/-- C1, counterexample: a raw trip whose pickup equals its dropoff (zero
duration_seconds) appears in the CleanTrip output of its partition, so the
claimed invariant 0 < duration_seconds fails on the code: the WHERE clause
of clean_one bounds duration_seconds from above only. -/
theorem C1_counterexample_zero_duration :
    zeroDurTrip ∈ clean_one [zeroDurTrip] ∧
      ¬ 0 < date_diff_seconds zeroDurTrip.pickup_datetime zeroDurTrip.dropoff_datetime := by
  constructor
  · decide
  · decide

/-- C1, amended: every row of any CleanTrip output of the Record Filter
satisfies 0 < trip_distance ≤ 100, duration_seconds ≤ 86400 (no lower bound
on duration is enforced), passenger_count null-or-nonzero, and the output
has no field-wise duplicate rows. -/
theorem C1_invariant_closure_amended : ∀ raw : List Trip,
    (clean_one raw).Nodup ∧
      ∀ t ∈ clean_one raw,
        0 < t.trip_distance ∧ t.trip_distance ≤ MAX_TRIP_MILES ∧
          date_diff_seconds t.pickup_datetime t.dropoff_datetime ≤ MAX_TRIP_SECONDS ∧
          (t.passenger_count = none ∨ t.passenger_count ≠ some 0) := by
  intro raw
  constructor
  · rw [clean_one_eq]
    exact List.nodup_dedup _
  · intro t ht
    obtain ⟨-, hk⟩ := (mem_clean_one raw t).mp ht
    unfold keepTrip filteredPred baseRow at hk
    simp only [Bool.and_eq_true, decide_eq_true_eq] at hk
    obtain ⟨⟨⟨hp, h1⟩, h2⟩, h3⟩ := hk
    exact ⟨h1, h2, h3, (passenger_ok_iff _).mp hp⟩

/-! Claim C9. -/

/-- C9: every row of a CleanTrip output is field-wise equal (on the six
output columns) to a row of the raw input: the Record Filter only selects
and deduplicates, never fabricating rows or altering field values. -/
theorem C9_output_rows_from_input (raw : List Trip) (t : Trip)
    (h : t ∈ clean_one raw) : t ∈ raw :=
  ((mem_clean_one raw t).mp h).1

/-- Witness for C9 at a concrete partition. -/
theorem C9_output_rows_from_input_witness : plainTrip ∈ [plainTrip, zeroDurTrip] :=
  C9_output_rows_from_input [plainTrip, zeroDurTrip] plainTrip (by decide)

/-! Claim C2. -/

/-- C2, counterexample: with an emission lookup present but resolving zero
rows for the requested category, transform_one succeeds with an empty
output instead of failing; with an ambiguous lookup (two rows for the
category) it silently succeeds using the first row only.  Neither case is
the fatal error the claim requires. -/
theorem C2_counterexample_silent_resolution :
    transform_one (some tblNoYellow) (some [plainTrip]) "yellow" = Except.ok [] ∧
      transform_one (some tblTwoYellow) (some [plainTrip]) "yellow" =
        Except.ok [enrichRow 400 plainTrip] := by
  constructor
  · rfl
  · rfl

/-- C2, amended: the absence of the emission lookup table, and the absence
of its co2_grams_per_mile column, abort the enrichment with an error; but a
lookup resolving zero rows for the category does not abort — the run
silently continues and produces an empty output (and an ambiguous lookup
silently keeps only its first matching row, by LIMIT 1). -/
theorem C2_fatal_only_for_missing_table :
    (∀ (src : Option (List Trip)) (taxi : String),
      transform_one none src taxi =
        Except.error "vehicle_emissions lookup table not found. Run load.py first.") ∧
    (∀ (tbl : EmissionsTable) (rows : List Trip) (taxi : String),
      tbl.has_co2_grams_per_mile = false →
        transform_one (some tbl) (some rows) taxi =
          Except.error "vehicle_emissions must have column co2_grams_per_mile.") ∧
    (∀ (tbl : EmissionsTable) (rows : List Trip) (taxi : String),
      tbl.has_co2_grams_per_mile = true → veFactors tbl taxi = [] →
        transform_one (some tbl) (some rows) taxi = Except.ok []) := by
  refine ⟨fun src taxi => rfl, ?_, ?_⟩
  · intro tbl rows taxi h
    simp [transform_one, h]
  · intro tbl rows taxi h1 h2
    simp [transform_one, h1, h2, flatten_map_nil]

/-! Claim C3. -/

/-- C3, counterexample: a run of the enricher on a one-row CleanTrip
partition whose factor lookup resolves zero rows succeeds with an empty
output: the EnrichedTrip partition does not have as many rows as its
input. -/
theorem C3_counterexample_dropped_rows :
    transform_one (some tblEmptyRows) (some [plainTrip]) "yellow" = Except.ok [] ∧
      ([] : List EnrichedTrip).length ≠ [plainTrip].length := by
  constructor
  · rfl
  · decide

/-- C3, amended: a successful enrichment run multiplies the row count by the
number of resolved factor rows, which LIMIT 1 caps at one; so whenever the
factor lookup resolves a row the output has exactly as many rows as the
CleanTrip input, and when it resolves none the output is empty. -/
theorem C3_conservation_amended (tbl : EmissionsTable) (rows : List Trip)
    (taxi : String) (out : List EnrichedTrip)
    (h : transform_one (some tbl) (some rows) taxi = Except.ok out) :
    out.length = rows.length * (veFactors tbl taxi).length ∧
      (veFactors tbl taxi).length ≤ 1 ∧
      (veFactors tbl taxi ≠ [] → out.length = rows.length) ∧
      (veFactors tbl taxi = [] → out = []) := by
  obtain ⟨-, hout⟩ := transform_one_ok tbl rows taxi out h
  subst hout
  have hlen :
      ((rows.map fun t => (veFactors tbl taxi).map fun f => enrichRow f t).flatten).length
        = rows.length * (veFactors tbl taxi).length := by
    rw [List.length_flatten, List.map_map]
    have hc : (List.length ∘ fun t => (veFactors tbl taxi).map fun f => enrichRow f t)
        = fun _ => (veFactors tbl taxi).length := by
      funext t
      exact List.length_map _ _
    rw [hc, sum_map_const]
  refine ⟨hlen, veFactors_length_le tbl taxi, ?_, ?_⟩
  · intro hne
    have h0 : (veFactors tbl taxi).length ≠ 0 := by
      simpa [List.length_eq_zero] using hne
    have h1 : (veFactors tbl taxi).length = 1 := by
      have := veFactors_length_le tbl taxi
      omega
    rw [hlen, h1, Nat.mul_one]
  · intro hnil
    rw [hnil]
    simp [flatten_map_nil]

/-- Witness for C3 at a concrete two-row partition and a resolving
lookup. -/
theorem C3_conservation_amended_witness :
    outConservation.length = [plainTrip, plainTrip2].length * (veFactors tblOneYellow "yellow").length ∧
      (veFactors tblOneYellow "yellow").length ≤ 1 ∧
      (veFactors tblOneYellow "yellow" ≠ [] → outConservation.length = [plainTrip, plainTrip2].length) ∧
      (veFactors tblOneYellow "yellow" = [] → outConservation = []) :=
  C3_conservation_amended tblOneYellow [plainTrip, plainTrip2] "yellow" outConservation rfl

/-! Claim C5. -/

/-- C5: every row a successful enrichment run emits carries
trip_co2_kgs = trip_distance * co2_grams_per_mile / 1000, for the factor
the lookup resolved. -/
theorem C5_co2_formula (tbl : EmissionsTable) (rows : List Trip) (taxi : String)
    (out : List EnrichedTrip)
    (h : transform_one (some tbl) (some rows) taxi = Except.ok out) :
    ∀ e ∈ out, ∃ f ∈ veFactors tbl taxi, e.trip_co2_kgs = e.trip_distance * f / 1000 := by
  obtain ⟨-, hout⟩ := transform_one_ok tbl rows taxi out h
  subst hout
  intro e he
  rw [List.mem_flatten] at he
  obtain ⟨inner, hinner, hein⟩ := he
  rw [List.mem_map] at hinner
  obtain ⟨t, -, rfl⟩ := hinner
  rw [List.mem_map] at hein
  obtain ⟨f, hf, rfl⟩ := hein
  exact ⟨f, hf, rfl⟩

/-- Witness for C5 at the scenario of the spec: factor 400 on a trip of
distance 10 gives trip_co2_kgs exactly 4. -/
theorem C5_co2_formula_witness :
    scenarioEnriched.trip_co2_kgs = 4 ∧
      (∃ f ∈ veFactors tblScenario "yellow",
        scenarioEnriched.trip_co2_kgs = scenarioEnriched.trip_distance * f / 1000) := by
  constructor
  · show (10 : ℚ) * 400 / 1000 = 4
    norm_num
  · exact C5_co2_formula tblScenario [scenarioTrip] "yellow" outScenario rfl
      scenarioEnriched (List.mem_singleton_self scenarioEnriched)

/-! Claim C8. -/

/-- C8: every row a successful enrichment run emits comes from a source row
whose avg_mph is null when duration_seconds is not positive, and is
computed by the guarded division trip_distance / (duration_seconds / 3600)
only when duration_seconds is positive; so a zero-duration source row
enriches to a null avg_mph rather than an error. -/
theorem C8_avg_speed_guard (tbl : EmissionsTable) (rows : List Trip) (taxi : String)
    (out : List EnrichedTrip)
    (h : transform_one (some tbl) (some rows) taxi = Except.ok out)
    (e : EnrichedTrip) (he : e ∈ out) :
    ∃ t ∈ rows,
      e.trip_distance = t.trip_distance ∧
      (date_diff_seconds t.pickup_datetime t.dropoff_datetime ≤ 0 → e.avg_mph = none) ∧
      (0 < date_diff_seconds t.pickup_datetime t.dropoff_datetime →
        e.avg_mph = some (t.trip_distance /
          ((date_diff_seconds t.pickup_datetime t.dropoff_datetime : ℚ) / SECONDS_PER_HOUR))) := by
  obtain ⟨-, hout⟩ := transform_one_ok tbl rows taxi out h
  subst hout
  rw [List.mem_flatten] at he
  obtain ⟨inner, hinner, hein⟩ := he
  rw [List.mem_map] at hinner
  obtain ⟨t, ht, rfl⟩ := hinner
  rw [List.mem_map] at hein
  obtain ⟨f, -, rfl⟩ := hein
  have havg : (enrichRow f t).avg_mph =
      if 0 < ((date_diff_seconds t.pickup_datetime t.dropoff_datetime : Int) : ℚ) then
        some (t.trip_distance /
          (((date_diff_seconds t.pickup_datetime t.dropoff_datetime : Int) : ℚ) / SECONDS_PER_HOUR))
      else none := rfl
  refine ⟨t, ht, rfl, ?_, ?_⟩
  · intro hd
    rw [havg, if_neg]
    intro hc
    exact absurd (Int.cast_pos.mp hc) (not_lt.mpr hd)
  · intro hd
    rw [havg, if_pos (Int.cast_pos.mpr hd)]

/-- Witness for C8 at a concrete zero-duration cleaned trip: the enrichment
succeeds and its avg_mph is null. -/
theorem C8_avg_speed_guard_witness :
    guardEnriched.avg_mph = none ∧
      (∃ t ∈ [zeroDurClean],
        guardEnriched.trip_distance = t.trip_distance ∧
        (date_diff_seconds t.pickup_datetime t.dropoff_datetime ≤ 0 →
          guardEnriched.avg_mph = none) ∧
        (0 < date_diff_seconds t.pickup_datetime t.dropoff_datetime →
          guardEnriched.avg_mph = some (t.trip_distance /
            ((date_diff_seconds t.pickup_datetime t.dropoff_datetime : ℚ) / SECONDS_PER_HOUR)))) := by
  constructor
  · rfl
  · exact C8_avg_speed_guard tblGuard [zeroDurClean] "yellow" outGuard rfl
      guardEnriched (List.mem_singleton_self guardEnriched)

/-! Claim C7. -/

/-- C7: for a non-empty list of partitions, the consolidated view exists and
its row multiset is the multiset sum of the partitions (UNION ALL is plain
concatenation, with no deduplication), and re-running the consolidation over
the same partitions yields the same view whatever table stood there before
(DROP TABLE IF EXISTS replaces, never merges). -/
theorem C7_union_multiset (α : Type) (prev prev2 : Option (List α))
    (parts : List (List α)) (h : parts ≠ []) :
    ∃ v, make_union_table prev parts = some v ∧
      Multiset.ofList v = (parts.map fun p => Multiset.ofList p).sum ∧
      make_union_table prev2 parts = some v := by
  refine ⟨parts.flatten, ?_, ?_, ?_⟩
  · unfold make_union_table
    rw [if_neg (by simpa [List.isEmpty_iff] using h)]
  · have hm : ∀ l : List (List α),
        Multiset.ofList l.flatten = (l.map fun p => Multiset.ofList p).sum := by
      intro l
      induction l with
      | nil => rfl
      | cons p ps ih =>
        rw [List.flatten_cons, List.map_cons, List.sum_cons, ← ih]
        exact (Multiset.coe_add p ps.flatten).symm
    exact hm parts
  · unfold make_union_table
    rw [if_neg (by simpa [List.isEmpty_iff] using h)]

/-- Witness for C7 at two concrete one-row cleaned partitions, with two
different pre-existing tables. -/
theorem C7_union_multiset_witness :
    ∃ v, make_union_table (some [zeroDurTrip]) [[plainTrip], [plainTrip2]] = some v ∧
      Multiset.ofList v = ([[plainTrip], [plainTrip2]].map fun p => Multiset.ofList p).sum ∧
      make_union_table none [[plainTrip], [plainTrip2]] = some v :=
  C7_union_multiset Trip (some [zeroDurTrip]) none [[plainTrip], [plainTrip2]] (by decide)

/-! Claim C10. -/

/-- C10: when the lookup table has a taxi_type column, a factor row whose
stored category lowercases to the requested category resolves: the CTE
compares lower(taxi_type) with the requested string, so a category
differing from the request in letter case only still matches. -/
theorem C10_lowercase_match (tbl : EmissionsTable) (taxi : String) (r : EmissionRow)
    (h1 : tbl.has_taxi_type = true) (h2 : r ∈ tbl.rows)
    (h3 : sqlLower r.taxi_type = taxi) :
    veFactors tbl taxi ≠ [] := by
  unfold veFactors
  rw [h1, if_pos rfl]
  intro hcontra
  rw [List.take_eq_nil_iff] at hcontra
  rcases hcontra with hcontra | hcontra
  · exact absurd hcontra one_ne_zero
  · have hmem : r ∈ tbl.rows.filter fun s => sqlLower s.taxi_type == taxi :=
      List.mem_filter.mpr ⟨h2, by simp [h3]⟩
    rw [List.map_eq_nil_iff] at hcontra
    rw [hcontra] at hmem
    exact absurd hmem (List.not_mem_nil r)

/-- Witness for C10: the stored category Yellow resolves for the requested
category yellow, yielding factor 400. -/
theorem C10_lowercase_match_witness :
    veFactors tblCased "yellow" ≠ [] ∧ veFactors tblCased "yellow" = [400] := by
  constructor
  · exact C10_lowercase_match tblCased "yellow" casedRow rfl (by decide) (by decide)
  · rfl

/-! Claim C6. -/

/-- C6, counterexample: on the view with CO2 values 5.0, 5.0 and 3.2, two
distinct rows are both possible results of the extremal-trip query: ORDER BY
trip_co2_kgs DESC LIMIT 1 has no secondary sort key, so which row of a tie
is returned is not determined by the query — the claimed deterministic
tie-breaking does not hold. -/
theorem C6_counterexample_tie_not_deterministic :
    tieRowA ≠ tieRowB ∧ get_max_trip_result tieView tieRowA ∧
      get_max_trip_result tieView tieRowB := by
  have helig : maxTripEligible tieView = [tieRowA, tieRowB, tieRowC] := rfl
  have hbound : ∀ s ∈ maxTripEligible tieView, co2Key s ≤ (5 : ℚ) := by
    rw [helig]
    intro s hs
    rcases List.mem_cons.mp hs with h | h
    · subst h; norm_num [co2Key, tieRowA]
    rcases List.mem_cons.mp h with h2 | h2
    · subst h2; norm_num [co2Key, tieRowB]
    rcases List.mem_cons.mp h2 with h3 | h3
    · subst h3; norm_num [co2Key, tieRowC]
    · exact absurd h3 (List.not_mem_nil s)
  have hA : co2Key tieRowA = 5 := by norm_num [co2Key, tieRowA]
  have hB : co2Key tieRowB = 5 := by norm_num [co2Key, tieRowB]
  refine ⟨by decide, ⟨by decide, ?_⟩, ⟨by decide, ?_⟩⟩
  · intro s hs
    rw [hA]
    exact hbound s hs
  · intro s hs
    rw [hB]
    exact hbound s hs

/-- C6, amended: over a view with at least one non-null trip_co2_kgs row,
the extremal-trip query has a possible result, and every possible result
carries exactly the maximum non-null trip_co2_kgs of the view; the value is
thus determined, but on ties the query does not determine which row carries
it. -/
theorem C6_max_value_amended (rows : List TRow) (h : maxTripEligible rows ≠ []) :
    (∃ r, get_max_trip_result rows r) ∧
      ∀ r, get_max_trip_result rows r → r.trip_co2_kgs = maxCo2 rows := by
  constructor
  · obtain ⟨r, hr, hmax⟩ := exists_max_on co2Key (maxTripEligible rows) h
    exact ⟨r, hr, hmax⟩
  · rintro r ⟨hr, hmax⟩
    have hv := filterMap_co2 rows
    have hrSome : r.trip_co2_kgs.isSome = true := by
      have := (List.mem_filter.mp hr).2
      simpa using this
    obtain ⟨v, hvsome⟩ := Option.isSome_iff_exists.mp hrSome
    have hkey : co2Key r = v := by simp [co2Key, hvsome]
    cases hvals : rows.filterMap (fun s => s.trip_co2_kgs) with
    | nil =>
      rw [hvals] at hv
      exact absurd (List.map_eq_nil_iff.mp hv.symm) h
    | cons x xs =>
      have hmax_eq : maxCo2 rows = some (xs.foldl max x) := by
        unfold maxCo2
        rw [hvals]
      rw [hmax_eq, hvsome]
      have hvmem : v ∈ x :: xs := by
        rw [← hvals, hv, ← hkey]
        exact List.mem_map_of_mem co2Key hr
      have hle1 : v ≤ xs.foldl max x := le_foldl_max x xs v hvmem
      have hfm : xs.foldl max x ∈ List.map co2Key (maxTripEligible rows) := by
        rw [← hv, hvals]
        exact foldl_max_mem x xs
      obtain ⟨s, hs, hsval⟩ := List.mem_map.mp hfm
      have hle2 : xs.foldl max x ≤ v := by
        rw [← hsval, ← hkey]
        exact hmax s hs
      exact congrArg some (le_antisymm hle1 hle2)

/-- Witness for C6 at the view with CO2 values 5.0, 5.0 and 3.2: the
maximum value is 5. -/
theorem C6_max_value_amended_witness :
    ((∃ r, get_max_trip_result tieView r) ∧
      ∀ r, get_max_trip_result tieView r → r.trip_co2_kgs = maxCo2 tieView) ∧
      maxCo2 tieView = some 5 := by
  constructor
  · exact C6_max_value_amended tieView (by decide)
  · show some (List.foldl max 5 [5, 16/5]) = some 5
    norm_num [List.foldl, max_def]

/-! Claim C4. -/

/-- C4, counterexample: on a view with trips only in cyclical months 1 and 3
of a single covered cycle (the year 2020), the cyclical-average report has
the claimed 2 entries, but the monthly-total report also has only 2 entries
rather than the claimed 12: monthly_totals_full groups by the year-months
actually present and performs no zero-filling. -/
theorem C4_counterexample_totals_not_zero_filled :
    (avg_by_bucket monthView fun r => r.month_of_year).length = 2 ∧
      (monthly_totals_full monthView).length = 2 ∧
      (monthly_totals_full monthView).length ≠ 12 := by
  refine ⟨?_, ?_, ?_⟩ <;> decide

/-- C4, amended: both reports use strict bucket-had-rows semantics.  Every
entry of the cyclical-average report and every entry of the monthly-total
report comes from a row actually present in the view (no zero-filled
entries), and on the view with trips only in months 1 and 3 of one cycle
the average report has exactly the entries for months 1 and 3 while the
monthly-total report has exactly the entries for 2020-01 and 2020-03. -/
theorem C4_strict_bucket_semantics_amended :
    (∀ (rows : List TRow) (bucket : TRow → Option Int),
      ∀ p ∈ avg_by_bucket rows bucket,
        ∃ r ∈ rows, bucket r = some p.1 ∧ r.trip_co2_kgs.isSome = true) ∧
    (∀ rows : List TRow,
      ∀ p ∈ monthly_totals_full rows,
        ∃ r ∈ rows, r.trip_co2_kgs.isSome = true ∧ pickupYM r = p.1) ∧
    (avg_by_bucket monthView fun r => r.month_of_year).map Prod.fst = [1, 3] ∧
    (monthly_totals_full monthView).map Prod.fst = [(2020, 1), (2020, 3)] := by
  refine ⟨?_, ?_, by decide, by decide⟩
  · intro rows bucket p hp
    unfold avg_by_bucket at hp
    rw [List.mem_map] at hp
    obtain ⟨b, hb, rfl⟩ := hp
    rw [mem_sortLe, List.mem_dedup, List.mem_map] at hb
    obtain ⟨pr, hpr, rfl⟩ := hb
    rw [List.mem_filterMap] at hpr
    obtain ⟨r, hr, hg⟩ := hpr
    obtain ⟨hbr, hcr⟩ := bucketPair_eq_some bucket r pr hg
    exact ⟨r, hr, hbr, by rw [hcr]; rfl⟩
  · intro rows p hp
    unfold monthly_totals_full at hp
    rw [List.mem_map] at hp
    obtain ⟨k, hk, rfl⟩ := hp
    rw [mem_sortLe, List.mem_dedup, List.mem_map] at hk
    obtain ⟨r, hr, rfl⟩ := hk
    rw [List.mem_filter] at hr
    exact ⟨r, hr.1, hr.2, rfl⟩

end TaxiCO2
